import Mathlib

/-!
Verification of the WorkShift client (a React attendance-tracking frontend)
against its natural-language specification.

The repository is a presentation-layer client; its derivation logic is embedded
shallowly here:

* JS objects whose fields may be `undefined` become structures with `Option`
  fields.  A timestamp field (an ISO string in transit, used only through
  `new Date`/`parseISO`) is modelled as milliseconds since the epoch (`Int`);
  a decimal-hours field is modelled as `Rat`.
* JS truthiness on these fields: `undefined` is falsy; a number is falsy
  exactly when it is `0`; a string is falsy exactly when it is empty.
* `Math.floor(a / b)` for a positive constant divisor `b` is Lean's `Int`
  division `a / b` (Euclidean division rounds toward `-∞` when the divisor is
  positive); the JS remainder `a % b` (sign of the dividend) is `Int.tmod`.
* Event-handler functions (which set state, issue one HTTP call and show
  toasts) are embedded as pure functions from the call's outcome to the list
  of UI effects they perform, in order.
* A JS runtime `TypeError` (reading a property of `undefined`) is modelled by
  `Except.error`.
-/

namespace WorkShift

/-- An attendance record as consumed by the client (spec §3).  Every field the
server may omit is an `Option`; `date`, `attendance_id` and the employer-report
fields `user_name`/`user_email` are the fields the client dereferences
unconditionally.  Timestamps are milliseconds since the epoch. -/
structure AttendanceRecord where
  date : String := ""
  punch_in : Option Int := none
  punch_out : Option Int := none
  break_start : Option Int := none
  break_end : Option Int := none
  total_hours : Option Rat := none
  break_duration : Option Rat := none
  status : Option String := none
  is_weekend : Bool := false
  is_complete : Bool := false
  attendance_id : String := ""
  user_name : String := ""
  user_email : String := ""
deriving Repr, DecidableEq

/-- Response of GET /attendance/today-status: `{attendance: AttendanceRecord | null}`. -/
structure TodayStatus where
  attendance : Option AttendanceRecord
deriving Repr, DecidableEq

/-- The user object returned by the auth endpoints and stored client-side. -/
structure User where
  name : String
  email : String
  role : String
deriving Repr, DecidableEq

namespace EmployeeDashboard

/-- EmployeeDashboard.js line 149:
`const isPunchedIn = attendance?.punch_in && !attendance?.punch_out;`
(the optional chaining makes the whole expression falsy when `attendance` is
`null`; a present timestamp string is truthy). -/
def isPunchedIn (attendance : Option AttendanceRecord) : Bool :=
  match attendance with
  | none => false
  | some a => a.punch_in.isSome && a.punch_out.isNone

/-- EmployeeDashboard.js line 150:
`const onBreak = attendance?.break_start && !attendance?.break_end;` -/
def onBreak (attendance : Option AttendanceRecord) : Bool :=
  match attendance with
  | none => false
  | some a => a.break_start.isSome && a.break_end.isNone

/-- EmployeeDashboard.js lines 117-128 (`calculateElapsedTime`): difference of
`currentTime` and `punch_in` in milliseconds, hours by
`Math.floor(diff / 3600000)`, minutes by `Math.floor((diff % 3600000) / 60000)`,
shown as `` `${hours}h ${minutes}m` ``; `'0h 0m'` when
`todayStatus?.attendance?.punch_in` is absent. -/
def calculateElapsedTime (todayStatus : Option TodayStatus) (currentTime : Int) : String :=
  match todayStatus with
  | none => "0h 0m"
  | some ts =>
    match ts.attendance with
    | none => "0h 0m"
    | some a =>
      match a.punch_in with
      | none => "0h 0m"
      | some punchIn =>
        let diff := currentTime - punchIn
        let hours := diff / (1000 * 60 * 60)
        let minutes := (Int.tmod diff (1000 * 60 * 60)) / (1000 * 60)
        s!"{hours}h {minutes}m"

/-- The style class of the `complete` badge (EmployeeDashboard.js line 132). -/
def completeClass : String := "bg-emerald-50 text-emerald-700 border-emerald-200"

/-- The style class of the `incomplete` badge (EmployeeDashboard.js line 133). -/
def incompleteClass : String := "bg-amber-50 text-amber-700 border-amber-200"

/-- The style class of the `break_exceeded` badge (EmployeeDashboard.js line 134). -/
def breakExceededClass : String := "bg-red-50 text-red-700 border-red-200"

/-- The style class of the `active` badge (EmployeeDashboard.js line 135). -/
def activeClass : String := "bg-blue-50 text-blue-700 border-blue-200"

/-- The `badges` object literal of EmployeeDashboard.js lines 131-136, read at
key `status`: `undefined` (here `none`) when the key is not one of the four. -/
def badgesLookup (status : String) : Option String :=
  if status = "complete" then some completeClass
  else if status = "incomplete" then some incompleteClass
  else if status = "break_exceeded" then some breakExceededClass
  else if status = "active" then some activeClass
  else none

/-- EmployeeDashboard.js lines 130-138 (`getStatusBadge`):
`badges[status] || badges.active`; the argument itself may be `undefined`. -/
def getStatusBadge (status : Option String) : String :=
  (status.bind badgesLookup).getD activeClass

end EmployeeDashboard

namespace EmployerDashboard

/-- One entry of the `badges` object of EmployerDashboard.js lines 42-47: a
style class (the source's `class` property, a reserved word in Lean) and a
label. -/
structure StatusBadge where
  cssClass : String
  label : String
deriving Repr, DecidableEq

/-- The `badges` object literal of EmployerDashboard.js lines 42-47, read at
key `status`. -/
def badgesLookup (status : String) : Option StatusBadge :=
  if status = "complete" then
    some { cssClass := "bg-emerald-50 text-emerald-700 border-emerald-200", label := "Complete" }
  else if status = "incomplete" then
    some { cssClass := "bg-amber-50 text-amber-700 border-amber-200", label := "Incomplete" }
  else if status = "break_exceeded" then
    some { cssClass := "bg-red-50 text-red-700 border-red-200", label := "Break Exceeded" }
  else if status = "active" then
    some { cssClass := "bg-blue-50 text-blue-700 border-blue-200", label := "Active" }
  else none

/-- The `active` entry of the employer `badges` object. -/
def activeBadge : StatusBadge :=
  { cssClass := "bg-blue-50 text-blue-700 border-blue-200", label := "Active" }

/-- EmployerDashboard.js lines 41-49 (`getStatusBadge`):
`badges[status] || badges.active`. -/
def getStatusBadge (status : Option String) : StatusBadge :=
  (status.bind badgesLookup).getD activeBadge

/-- The four display counters of EmployerDashboard.js lines 51-58. -/
structure Stats where
  totalRecords : Nat
  completeShifts : Nat
  incompleteShifts : Nat
  breakExceeded : Nat
deriving Repr, DecidableEq

/-- EmployerDashboard.js lines 51-58 (`getStats`): length of `monthlyData` and
three filter counts (`r.is_complete`;
`!r.is_complete && !r.is_weekend && r.punch_in`;
`r.status === 'break_exceeded'`). -/
def getStats (monthlyData : List AttendanceRecord) : Stats :=
  { totalRecords := monthlyData.length
    completeShifts := (monthlyData.filter (fun r => r.is_complete)).length
    incompleteShifts :=
      (monthlyData.filter (fun r => !r.is_complete && !r.is_weekend && r.punch_in.isSome)).length
    breakExceeded := (monthlyData.filter (fun r => r.status == some "break_exceeded")).length }

end EmployerDashboard

/-- Two-digit zero padding, as used by the hh and mm fields of date-fns. -/
def pad2 (n : Nat) : String :=
  if n < 10 then "0" ++ toString n else toString n

/-- Models the external date-fns call `format(parseISO(t), 'hh:mm a')` on a
millisecond timestamp, in UTC (12-hour clock with AM/PM). -/
def formatTimeHHMM (t : Int) : String :=
  let minutesOfDay := (Int.emod t 86400000).toNat / 60000
  let h24 := minutesOfDay / 60
  let m := minutesOfDay % 60
  let h12 := if h24 % 12 = 0 then 12 else h24 % 12
  pad2 h12 ++ ":" ++ pad2 m ++ " " ++ (if h24 < 12 then "AM" else "PM")

/-- Month abbreviations of the date-fns MMM field. -/
def monthAbbrev (m : Nat) : String :=
  match m with
  | 1 => "Jan" | 2 => "Feb" | 3 => "Mar" | 4 => "Apr" | 5 => "May" | 6 => "Jun"
  | 7 => "Jul" | 8 => "Aug" | 9 => "Sep" | 10 => "Oct" | 11 => "Nov" | 12 => "Dec"
  | _ => "Invalid"

/-- Models the external date-fns call `format(parseISO(date), 'MMM d, yyyy')`
on a yyyy-MM-dd date string. -/
def formatDateMMMd (date : String) : String :=
  match date.splitOn "-" with
  | [y, m, d] => monthAbbrev ((m.toNat?).getD 0) ++ " " ++ toString ((d.toNat?).getD 0) ++ ", " ++ y
  | _ => "Invalid Date"

/-- The timestamp cell expression `x ? format(parseISO(x), 'hh:mm a') : '-'`
used for punch_in and punch_out in EmployeeDashboard.js lines 253, 259, 315,
318 and EmployerDashboard.js lines 215, 218. -/
def renderOptTime (t : Option Int) : String :=
  match t with
  | some ts => formatTimeHHMM ts
  | none => "-"

/-- The hours cell expression `` h ? `${h}h` : '-' `` used for total_hours and
break_duration in EmployeeDashboard.js lines 265, 271, 321, 324 and
EmployerDashboard.js lines 222, 227.  JS truthiness: both an absent field and
the number 0 take the '-' branch. -/
def renderHours (h : Option Rat) : String :=
  match h with
  | none => "-"
  | some x => if x = 0 then "-" else toString x ++ "h"

/-- A JS runtime TypeError (property access on `undefined`), the failure mode
of rendering a record with a missing required field. -/
inductive JsError
  | typeError
deriving Repr, DecidableEq

/-- JS `String.prototype.replace` with a string pattern replaces only the
first occurrence. -/
def jsReplaceFirst (s pat repl : String) : String :=
  match s.splitOn pat with
  | [] => s
  | first :: rest =>
    if rest.isEmpty then s else first ++ repl ++ String.intercalate pat rest

/-- Does the first character list occur at the head of the second. -/
def charsLead : List Char → List Char → Bool
  | [], _ => true
  | _ :: _, [] => false
  | a :: as, b :: bs => a == b && charsLead as bs

/-- Does the pattern character list occur anywhere in the second list. -/
def charsHave (pat : List Char) : List Char → Bool
  | [] => charsLead pat []
  | s@(_ :: rest) => charsLead pat s || charsHave pat rest

/-- Substring containment: does `sub` occur anywhere in `s`. -/
def strContains (s sub : String) : Bool :=
  charsHave sub.data s.data

/-- The four attendance commands of spec §4.2. -/
inductive Command
  | punchIn | punchOut | startBreak | endBreak
deriving Repr, DecidableEq

/-- One UI effect performed by an event handler, in program order: state
writes to the two loading flags, the HTTP call, toasts, the post-success
refetches, and the `onLogin` callback of the auth page. -/
inductive UiEvent
  | setActionLoading (b : Bool)
  | setLoading (b : Bool)
  | httpRequest (path : String)
  | toastSuccess (msg : String)
  | toastError (msg : String)
  | refetchTodayStatus
  | refetchHistory
  | callOnLogin (token : String) (user : User)
deriving Repr, DecidableEq

/-- Outcome of one HTTP call: success carrying the response payload text the
handler interpolates, or failure carrying the optional
`error.response?.data?.detail`. -/
inductive Outcome
  | success (data : String)
  | failure (detail : Option String)
deriving Repr, DecidableEq

namespace EmployeeDashboard

/-- EmployeeDashboard.js lines 57-70 (`handlePunchIn`) as its ordered list of
UI effects for a given call outcome. -/
def handlePunchIn (o : Outcome) : List UiEvent :=
  [.setActionLoading true, .httpRequest "/attendance/punch-in"] ++
  (match o with
   | .success _ => [.toastSuccess "Punched in successfully!", .refetchTodayStatus]
   | .failure detail => [.toastError (detail.getD "Failed to punch in")]) ++
  [.setActionLoading false]

/-- EmployeeDashboard.js lines 72-85 (`handlePunchOut`); on success the toast
interpolates `response.data.work_hours` and both refetches run. -/
def handlePunchOut (o : Outcome) : List UiEvent :=
  [.setActionLoading true, .httpRequest "/attendance/punch-out"] ++
  (match o with
   | .success workHours =>
     [.toastSuccess ("Punched out! Total: " ++ workHours ++ "h worked"),
      .refetchTodayStatus, .refetchHistory]
   | .failure detail => [.toastError (detail.getD "Failed to punch out")]) ++
  [.setActionLoading false]

/-- EmployeeDashboard.js lines 87-100 (`handleStartBreak`). -/
def handleStartBreak (o : Outcome) : List UiEvent :=
  [.setActionLoading true, .httpRequest "/attendance/start-break"] ++
  (match o with
   | .success _ => [.toastSuccess "Break started", .refetchTodayStatus]
   | .failure detail => [.toastError (detail.getD "Failed to start break")]) ++
  [.setActionLoading false]

/-- EmployeeDashboard.js lines 102-115 (`handleEndBreak`). -/
def handleEndBreak (o : Outcome) : List UiEvent :=
  [.setActionLoading true, .httpRequest "/attendance/end-break"] ++
  (match o with
   | .success _ => [.toastSuccess "Break ended", .refetchTodayStatus]
   | .failure detail => [.toastError (detail.getD "Failed to end break")]) ++
  [.setActionLoading false]

/-- The handler invoked by each of the four command buttons. -/
def dispatch : Command → Outcome → List UiEvent
  | .punchIn => handlePunchIn
  | .punchOut => handlePunchOut
  | .startBreak => handleStartBreak
  | .endBreak => handleEndBreak

/-- The value of the `actionLoading` flag after processing a list of UI
effects starting from `init`. -/
def loadingAfter (events : List UiEvent) (init : Bool) : Bool :=
  events.foldl
    (fun st e =>
      match e with
      | .setActionLoading b => b
      | _ => st)
    init

/-- Recognizes the HTTP-call effect. -/
def isHttpRequest : UiEvent → Bool
  | .httpRequest _ => true
  | _ => false

/-- The `disabled={actionLoading}` props of the four command buttons
(EmployeeDashboard.js lines 189, 199, 219, 231). -/
structure ButtonsDisabled where
  punchIn : Bool
  punchOut : Bool
  startBreak : Bool
  endBreak : Bool
deriving Repr, DecidableEq

/-- All four command buttons take their disabled prop from the single
`actionLoading` flag. -/
def renderButtonsDisabled (actionLoading : Bool) : ButtonsDisabled :=
  { punchIn := actionLoading, punchOut := actionLoading,
    startBreak := actionLoading, endBreak := actionLoading }

/-- EmployeeDashboard.js lines 21-30 (`fetchTodayStatus`): on failure the
toast is the fixed string; the caught error object is not consulted. -/
def fetchTodayStatus (o : Outcome) : List UiEvent :=
  [.httpRequest "/attendance/today-status"] ++
  (match o with
   | .success _ => []
   | .failure _ => [.toastError "Failed to fetch today\x27s status"])

/-- EmployeeDashboard.js lines 32-41 (`fetchHistory`): fixed failure toast. -/
def fetchHistory (o : Outcome) : List UiEvent :=
  [.httpRequest "/attendance/my-history"] ++
  (match o with
   | .success _ => []
   | .failure _ => [.toastError "Failed to fetch history"])

/-- EmployeeDashboard.js line 277: the status text of the today-summary card,
`attendance.status.replace('_', ' ').toUpperCase()`; a TypeError when the
status field is absent. -/
def todayStatusText (status : Option String) : Except JsError String :=
  match status with
  | none => .error .typeError
  | some s => .ok ((jsReplaceFirst s "_" " ").toUpper)

/-- EmployeeDashboard.js line 328: the status text of a history row,
`record.status.replace('_', ' ')`; a TypeError when the status field is
absent. -/
def historyStatusText (status : Option String) : Except JsError String :=
  match status with
  | none => .error .typeError
  | some s => .ok (jsReplaceFirst s "_" " ")

/-- The data cells of the today-summary card (EmployeeDashboard.js lines
248-280) given the already-computed status text: punch in, punch out, total
hours, break duration, status. -/
def todaySummaryCells (a : AttendanceRecord) (statusText : String) : List String :=
  [renderOptTime a.punch_in, renderOptTime a.punch_out,
   renderHours a.total_hours, renderHours a.break_duration, statusText]

/-- Rendering the today-summary card for a present attendance record. -/
def renderTodaySummary (a : AttendanceRecord) : Except JsError (List String) :=
  (todayStatusText a.status).map (todaySummaryCells a)

/-- The data cells of one history row (EmployeeDashboard.js lines 311-331):
date, punch in, punch out, hours, break, status. -/
def historyRowCells (r : AttendanceRecord) (statusText : String) : List String :=
  [formatDateMMMd r.date, renderOptTime r.punch_in, renderOptTime r.punch_out,
   renderHours r.total_hours, renderHours r.break_duration, statusText]

/-- Rendering one attendance-history row. -/
def renderHistoryRow (r : AttendanceRecord) : Except JsError (List String) :=
  (historyStatusText r.status).map (historyRowCells r)

/-- EmployeeDashboard.js lines 176-183: the elapsed-time block is rendered
(and `calculateElapsedTime` displayed) only while `isPunchedIn` is true. -/
def elapsedTimeDisplay (todayStatus : Option TodayStatus) (currentTime : Int) : Option String :=
  if isPunchedIn (todayStatus.bind TodayStatus.attendance) then
    some (calculateElapsedTime todayStatus currentTime)
  else none

end EmployeeDashboard

namespace EmployerDashboard

/-- EmployerDashboard.js lines 21-35 (`fetchMonthlyReport`): the page spinner
flag is set for the duration; on failure the toast is the fixed string and the
caught error object is not consulted. -/
def fetchMonthlyReport (o : Outcome) : List UiEvent :=
  [.setLoading true, .httpRequest "/attendance/monthly-report"] ++
  (match o with
   | .success _ => []
   | .failure _ => [.toastError "Failed to fetch monthly report"]) ++
  [.setLoading false]

/-- One monthly-report row (EmployerDashboard.js lines 204-242): date,
employee name, email, punch in, punch out, total hours, break, status badge
label (a fixed Weekend badge on weekend rows).  A total function: every cell
tolerates absent optional fields. -/
def renderMonthlyRow (r : AttendanceRecord) : List String :=
  [formatDateMMMd r.date, r.user_name, r.user_email,
   renderOptTime r.punch_in, renderOptTime r.punch_out,
   renderHours r.total_hours, renderHours r.break_duration,
   if r.is_weekend then "Weekend" else (getStatusBadge r.status).label]

end EmployerDashboard

namespace AuthPage

/-- Outcome of an auth request: success carrying `response.data.token` and
`response.data.user`, or failure carrying the optional
`error.response?.data?.detail`. -/
inductive AuthOutcome
  | success (token : String) (user : User)
  | failure (detail : Option String)
deriving Repr, DecidableEq

/-- AuthPage.js lines 24-43 (`handleSubmit`) as its ordered list of UI effects:
the `loading` flag guards the submit buttons, one request goes to /auth/login
or /auth/register, success calls `onLogin` with the returned token and user,
failure toasts the server detail or the fixed fallback. -/
def handleSubmit (isLogin : Bool) (o : AuthOutcome) : List UiEvent :=
  [.setLoading true,
   .httpRequest (if isLogin then "/auth/login" else "/auth/register")] ++
  (match o with
   | .success token user =>
     [.toastSuccess (if isLogin then "Logged in successfully!" else "Account created successfully!"),
      .callOnLogin token user]
   | .failure detail => [.toastError (detail.getD "Authentication failed")]) ++
  [.setLoading false]

end AuthPage

namespace App

/-- A JSON value as produced by `JSON.stringify` and read back by
`JSON.parse`.  The platform pair is modelled at the level of the JSON tree;
the browser's string rendering of a tree is injective, so storing the tree is
faithful. -/
inductive Json
  | str (s : String)
  | obj (fields : List (String × Json))

/-- `JSON.stringify(userData)` for the user object stored by handleLogin
(App.js line 24). -/
def stringifyUser (u : User) : Json :=
  .obj [("name", .str u.name), ("email", .str u.email), ("role", .str u.role)]

/-- Key lookup in a JSON object's field list. -/
def jsonLookup : List (String × Json) → String → Option Json
  | [], _ => none
  | (k, v) :: rest, key => if k = key then some v else jsonLookup rest key

/-- `JSON.parse` of the stored user string (App.js line 17), read back as the
user object the app consumes (name, email, role). -/
def parseUser (j : Json) : Option User :=
  match j with
  | .obj fields =>
    match jsonLookup fields "name", jsonLookup fields "email", jsonLookup fields "role" with
    | some (.str n), some (.str e), some (.str r) => some { name := n, email := e, role := r }
    | _, _, _ => none
  | _ => none

/-- The two persisted client-side values: the localStorage keys `token` and
`user` (absent key = `none`). -/
structure LocalStorage where
  token : Option String := none
  user : Option Json := none

/-- App.js lines 22-26 (`handleLogin`): store the token and the stringified
user object. -/
def handleLogin (st : LocalStorage) (token : String) (userData : User) : LocalStorage :=
  { st with token := some token, user := some (stringifyUser userData) }

/-- App.js lines 28-32 (`handleLogout`): remove both keys. -/
def handleLogout (_st : LocalStorage) : LocalStorage :=
  { token := none, user := none }

/-- App.js lines 12-20 (the startup effect): read both keys; the guard is JS
truthiness of `token && userData`, so an empty-string token is rejected even
though present; on success the restored user is `JSON.parse` of the stored
string.  No network call and no expiry check occurs. -/
def appStartupUser (st : LocalStorage) : Option User :=
  match st.token, st.user with
  | some token, some userData =>
    if token = "" then none else parseUser userData
  | _, _ => none

end App

end WorkShift

namespace WorkShift

/-- C1: isPunchedIn is true exactly when punch_in is present and punch_out is
absent; a record with punch_in set and punch_out unset has it true, and setting
punch_out on that record makes it false. -/
theorem isPunchedIn_present_absent (a : AttendanceRecord) (t u : Int) :
    EmployeeDashboard.isPunchedIn (some { a with punch_in := some t, punch_out := none }) = true
  ∧ EmployeeDashboard.isPunchedIn
      (some { { a with punch_in := some t, punch_out := none } with punch_out := some u }) = false
  ∧ (∀ b : AttendanceRecord,
      EmployeeDashboard.isPunchedIn (some b) = (b.punch_in.isSome && b.punch_out.isNone))
  ∧ EmployeeDashboard.isPunchedIn none = false := by
  refine ⟨rfl, rfl, fun b => rfl, rfl⟩

/-- C2: for punch_in = T and now ≥ T, the elapsed-time display is the whole
hours `floor((now - T) in minutes / 60)` and whole minutes
`floor((now - T) in minutes) mod 60` (no rounding, no seconds); at
now = T + 125 minutes it is exactly "2h 5m". -/
theorem calculateElapsedTime_floor (a : AttendanceRecord) (t now : Int) (h : t ≤ now) :
    (∃ hrs mins : Nat,
      EmployeeDashboard.calculateElapsedTime
          (some ⟨some { a with punch_in := some t }⟩) now = s!"{hrs}h {mins}m"
      ∧ hrs = ((now - t).toNat / 60000) / 60
      ∧ mins = ((now - t).toNat / 60000) % 60)
  ∧ EmployeeDashboard.calculateElapsedTime
      (some ⟨some { a with punch_in := some t }⟩) (t + 125 * 60000) = "2h 5m" := by
  constructor
  · obtain ⟨d, hd, hdt⟩ : ∃ d : Nat, now - t = (d : Int) ∧ (now - t).toNat = d :=
      ⟨(now - t).toNat, (Int.toNat_of_nonneg (by omega)).symm, rfl⟩
    rw [hdt]
    refine ⟨d / 3600000, d % 3600000 / 60000, ?_, ?_, ?_⟩
    · simp only [EmployeeDashboard.calculateElapsedTime]
      rw [hd]
      have h1 : (d : Int) / (1000 * 60 * 60) = ((d / 3600000 : Nat) : Int) := by
        rw [show ((1000 * 60 * 60 : Int)) = ((3600000 : Nat) : Int) by norm_num]
        exact (Int.ofNat_ediv _ 3600000).symm
      have h2 : Int.tmod (d : Int) (1000 * 60 * 60) / (1000 * 60)
          = ((d % 3600000 / 60000 : Nat) : Int) := by
        rw [show ((1000 * 60 * 60 : Int)) = ((3600000 : Nat) : Int) by norm_num,
            ← Int.ofNat_tmod,
            show ((1000 * 60 : Int)) = ((60000 : Nat) : Int) by norm_num]
        exact (Int.ofNat_ediv _ 60000).symm
      rw [h1, h2]
      rfl
    · rw [Nat.div_div_eq_div_mul]
    · rw [show (3600000 : Nat) = 60000 * 60 by norm_num, Nat.mod_mul_right_div_self]
  · simp only [EmployeeDashboard.calculateElapsedTime]
    rw [show t + 125 * 60000 - t = (7500000 : Int) by ring]
    decide

/-- Witness for `calculateElapsedTime_floor` at T = 0 and now = 7500000 ms
(125 minutes later). -/
theorem calculateElapsedTime_floor_witness :
    (0 : Int) ≤ 7500000
  ∧ ((∃ hrs mins : Nat,
      EmployeeDashboard.calculateElapsedTime
          (some ⟨some { ({} : AttendanceRecord) with punch_in := some 0 }⟩) 7500000
        = s!"{hrs}h {mins}m"
      ∧ hrs = (((7500000 : Int) - 0).toNat / 60000) / 60
      ∧ mins = (((7500000 : Int) - 0).toNat / 60000) % 60)
    ∧ EmployeeDashboard.calculateElapsedTime
        (some ⟨some { ({} : AttendanceRecord) with punch_in := some 0 }⟩)
        ((0 : Int) + 125 * 60000) = "2h 5m") :=
  ⟨by decide, calculateElapsedTime_floor {} 0 7500000 (by decide)⟩

/-- C3: the four monthly counters are the list's length, the count of records
with is_complete, the count of incomplete non-weekend records with punch_in
present, and the count of records with status break_exceeded; the complete
counter is the same for every permutation of the list. -/
theorem getStats_counts (l l2 : List AttendanceRecord) (hperm : l.Perm l2) :
    (EmployerDashboard.getStats l).totalRecords = l.length
  ∧ (EmployerDashboard.getStats l).completeShifts = l.countP (fun r => r.is_complete)
  ∧ (EmployerDashboard.getStats l).incompleteShifts
      = l.countP (fun r => !r.is_complete && !r.is_weekend && r.punch_in.isSome)
  ∧ (EmployerDashboard.getStats l).breakExceeded
      = l.countP (fun r => r.status == some "break_exceeded")
  ∧ (EmployerDashboard.getStats l2).completeShifts
      = l.countP (fun r => r.is_complete) := by
  refine ⟨rfl, (List.countP_eq_length_filter _ _).symm,
    (List.countP_eq_length_filter _ _).symm, (List.countP_eq_length_filter _ _).symm, ?_⟩
  rw [show (EmployerDashboard.getStats l2).completeShifts
      = l2.countP (fun r => r.is_complete) from (List.countP_eq_length_filter _ _).symm]
  exact (hperm.countP_eq _).symm

/-- Witness for `getStats_counts` on a two-record list and its reversal. -/
theorem getStats_counts_witness :
    ([{ attendance_id := "a", is_complete := true },
      ({ attendance_id := "b" } : AttendanceRecord)].Perm
     [{ attendance_id := "b" }, { attendance_id := "a", is_complete := true }])
  ∧ ((EmployerDashboard.getStats
        [{ attendance_id := "a", is_complete := true }, { attendance_id := "b" }]).totalRecords
      = ([{ attendance_id := "a", is_complete := true },
          ({ attendance_id := "b" } : AttendanceRecord)]).length
    ∧ (EmployerDashboard.getStats
        [{ attendance_id := "a", is_complete := true }, { attendance_id := "b" }]).completeShifts
      = ([{ attendance_id := "a", is_complete := true },
          ({ attendance_id := "b" } : AttendanceRecord)]).countP (fun r => r.is_complete)
    ∧ (EmployerDashboard.getStats
        [{ attendance_id := "a", is_complete := true }, { attendance_id := "b" }]).incompleteShifts
      = ([{ attendance_id := "a", is_complete := true },
          ({ attendance_id := "b" } : AttendanceRecord)]).countP
            (fun r => !r.is_complete && !r.is_weekend && r.punch_in.isSome)
    ∧ (EmployerDashboard.getStats
        [{ attendance_id := "a", is_complete := true }, { attendance_id := "b" }]).breakExceeded
      = ([{ attendance_id := "a", is_complete := true },
          ({ attendance_id := "b" } : AttendanceRecord)]).countP
            (fun r => r.status == some "break_exceeded")
    ∧ (EmployerDashboard.getStats
        [{ attendance_id := "b" }, { attendance_id := "a", is_complete := true }]).completeShifts
      = ([{ attendance_id := "a", is_complete := true },
          ({ attendance_id := "b" } : AttendanceRecord)]).countP (fun r => r.is_complete)) :=
  ⟨by decide, getStats_counts _ _ (by decide)⟩

/-- C4: both status-badge mappings return the fixed entry for the four known
status values and fall back to the active style on any other value, including
an absent status; being total functions, they never throw. -/
theorem getStatusBadge_fallback (s : String)
    (h : s ∉ (["complete", "incomplete", "break_exceeded", "active"] : List String)) :
    EmployeeDashboard.getStatusBadge (some "complete") = EmployeeDashboard.completeClass
  ∧ EmployeeDashboard.getStatusBadge (some "incomplete") = EmployeeDashboard.incompleteClass
  ∧ EmployeeDashboard.getStatusBadge (some "break_exceeded") = EmployeeDashboard.breakExceededClass
  ∧ EmployeeDashboard.getStatusBadge (some "active") = EmployeeDashboard.activeClass
  ∧ EmployeeDashboard.getStatusBadge (some s) = EmployeeDashboard.activeClass
  ∧ EmployeeDashboard.getStatusBadge none = EmployeeDashboard.activeClass
  ∧ EmployerDashboard.getStatusBadge (some "complete")
      = { cssClass := "bg-emerald-50 text-emerald-700 border-emerald-200", label := "Complete" }
  ∧ EmployerDashboard.getStatusBadge (some "incomplete")
      = { cssClass := "bg-amber-50 text-amber-700 border-amber-200", label := "Incomplete" }
  ∧ EmployerDashboard.getStatusBadge (some "break_exceeded")
      = { cssClass := "bg-red-50 text-red-700 border-red-200", label := "Break Exceeded" }
  ∧ EmployerDashboard.getStatusBadge (some "active") = EmployerDashboard.activeBadge
  ∧ EmployerDashboard.getStatusBadge (some s) = EmployerDashboard.activeBadge
  ∧ EmployerDashboard.getStatusBadge none = EmployerDashboard.activeBadge := by
  simp only [List.mem_cons, List.not_mem_nil, or_false, not_or] at h
  obtain ⟨h1, h2, h3, h4⟩ := h
  refine ⟨by decide, by decide, by decide, by decide, ?_, by decide,
    by decide, by decide, by decide, by decide, ?_, by decide⟩
  · simp [EmployeeDashboard.getStatusBadge, EmployeeDashboard.badgesLookup, h1, h2, h3, h4]
  · simp [EmployerDashboard.getStatusBadge, EmployerDashboard.badgesLookup, h1, h2, h3, h4]

/-- Witness for `getStatusBadge_fallback` at the unrecognized status "mystery". -/
theorem getStatusBadge_fallback_witness :
    ("mystery" ∉ (["complete", "incomplete", "break_exceeded", "active"] : List String))
  ∧ (EmployeeDashboard.getStatusBadge (some "complete") = EmployeeDashboard.completeClass
  ∧ EmployeeDashboard.getStatusBadge (some "incomplete") = EmployeeDashboard.incompleteClass
  ∧ EmployeeDashboard.getStatusBadge (some "break_exceeded") = EmployeeDashboard.breakExceededClass
  ∧ EmployeeDashboard.getStatusBadge (some "active") = EmployeeDashboard.activeClass
  ∧ EmployeeDashboard.getStatusBadge (some "mystery") = EmployeeDashboard.activeClass
  ∧ EmployeeDashboard.getStatusBadge none = EmployeeDashboard.activeClass
  ∧ EmployerDashboard.getStatusBadge (some "complete")
      = { cssClass := "bg-emerald-50 text-emerald-700 border-emerald-200", label := "Complete" }
  ∧ EmployerDashboard.getStatusBadge (some "incomplete")
      = { cssClass := "bg-amber-50 text-amber-700 border-amber-200", label := "Incomplete" }
  ∧ EmployerDashboard.getStatusBadge (some "break_exceeded")
      = { cssClass := "bg-red-50 text-red-700 border-red-200", label := "Break Exceeded" }
  ∧ EmployerDashboard.getStatusBadge (some "active") = EmployerDashboard.activeBadge
  ∧ EmployerDashboard.getStatusBadge (some "mystery") = EmployerDashboard.activeBadge
  ∧ EmployerDashboard.getStatusBadge none = EmployerDashboard.activeBadge) :=
  ⟨by decide, getStatusBadge_fallback "mystery" (by decide)⟩

/-- C5: every command handler sets the action-in-flight flag as its first
action (before its single HTTP request), clears it as its very last action on
success and failure alike, keeps it set at every point strictly in between,
and while the flag is set all four command buttons are disabled. -/
theorem actionLoading_guards (c : Command) (o : Outcome) (i : Nat)
    (h1 : 1 ≤ i) (h2 : i < (EmployeeDashboard.dispatch c o).length) :
    (EmployeeDashboard.dispatch c o).head? = some (.setActionLoading true)
  ∧ (EmployeeDashboard.dispatch c o).getLast? = some (.setActionLoading false)
  ∧ (EmployeeDashboard.dispatch c o).countP EmployeeDashboard.isHttpRequest = 1
  ∧ EmployeeDashboard.loadingAfter ((EmployeeDashboard.dispatch c o).take i) false = true
  ∧ EmployeeDashboard.loadingAfter (EmployeeDashboard.dispatch c o) false = false
  ∧ (∀ b : Bool, EmployeeDashboard.renderButtonsDisabled b = ⟨b, b, b, b⟩) := by
  rcases o with d | d <;> cases c <;>
    refine ⟨rfl, rfl, rfl, ?_, rfl, fun b => rfl⟩ <;>
    · simp only [EmployeeDashboard.dispatch, EmployeeDashboard.handlePunchIn,
        EmployeeDashboard.handlePunchOut, EmployeeDashboard.handleStartBreak,
        EmployeeDashboard.handleEndBreak, List.cons_append, List.nil_append,
        List.length_cons, List.length_append, List.length_nil] at h2
      interval_cases i <;> rfl

/-- Witness for `actionLoading_guards` on a failing punch-in at the point
right after the request was issued. -/
theorem actionLoading_guards_witness :
    (1 ≤ 2 ∧ 2 < (EmployeeDashboard.dispatch .punchIn (.failure none)).length)
  ∧ ((EmployeeDashboard.dispatch .punchIn (.failure none)).head?
        = some (.setActionLoading true)
    ∧ (EmployeeDashboard.dispatch .punchIn (.failure none)).getLast?
        = some (.setActionLoading false)
    ∧ (EmployeeDashboard.dispatch .punchIn (.failure none)).countP
        EmployeeDashboard.isHttpRequest = 1
    ∧ EmployeeDashboard.loadingAfter
        ((EmployeeDashboard.dispatch .punchIn (.failure none)).take 2) false = true
    ∧ EmployeeDashboard.loadingAfter
        (EmployeeDashboard.dispatch .punchIn (.failure none)) false = false
    ∧ (∀ b : Bool, EmployeeDashboard.renderButtonsDisabled b = ⟨b, b, b, b⟩)) :=
  ⟨⟨by decide, by decide⟩,
   actionLoading_guards .punchIn (.failure none) 2 (by decide) (by decide)⟩

/-- C6 (amended): a failed command or auth request toasts the server's detail
verbatim when present and the handler's fixed fallback otherwise, while the
three fetch requests always toast their fixed generic string and ignore any
server detail; no failing handler issues a second request (no retry), and
every handler runs to completion (the traces are total values). -/
theorem error_toasts (c : Command) (d : String) (isLogin : Bool) :
    UiEvent.toastError d ∈ EmployeeDashboard.dispatch c (.failure (some d))
  ∧ UiEvent.toastError "Failed to punch in" ∈ EmployeeDashboard.handlePunchIn (.failure none)
  ∧ UiEvent.toastError "Failed to punch out" ∈ EmployeeDashboard.handlePunchOut (.failure none)
  ∧ UiEvent.toastError "Failed to start break"
      ∈ EmployeeDashboard.handleStartBreak (.failure none)
  ∧ UiEvent.toastError "Failed to end break" ∈ EmployeeDashboard.handleEndBreak (.failure none)
  ∧ UiEvent.toastError d ∈ AuthPage.handleSubmit isLogin (.failure (some d))
  ∧ UiEvent.toastError "Authentication failed" ∈ AuthPage.handleSubmit isLogin (.failure none)
  ∧ EmployeeDashboard.fetchTodayStatus (.failure (some d))
      = [.httpRequest "/attendance/today-status",
         .toastError "Failed to fetch today\x27s status"]
  ∧ EmployeeDashboard.fetchHistory (.failure (some d))
      = [.httpRequest "/attendance/my-history", .toastError "Failed to fetch history"]
  ∧ EmployerDashboard.fetchMonthlyReport (.failure (some d))
      = [.setLoading true, .httpRequest "/attendance/monthly-report",
         .toastError "Failed to fetch monthly report", .setLoading false]
  ∧ (EmployeeDashboard.dispatch c (.failure (some d))).countP
      EmployeeDashboard.isHttpRequest = 1
  ∧ (AuthPage.handleSubmit isLogin (.failure (some d))).countP
      EmployeeDashboard.isHttpRequest = 1
  ∧ (EmployeeDashboard.fetchTodayStatus (.failure (some d))).countP
      EmployeeDashboard.isHttpRequest = 1
  ∧ (EmployeeDashboard.fetchHistory (.failure (some d))).countP
      EmployeeDashboard.isHttpRequest = 1
  ∧ (EmployerDashboard.fetchMonthlyReport (.failure (some d))).countP
      EmployeeDashboard.isHttpRequest = 1 := by
  refine ⟨?_, by simp [EmployeeDashboard.handlePunchIn],
    by simp [EmployeeDashboard.handlePunchOut], by simp [EmployeeDashboard.handleStartBreak],
    by simp [EmployeeDashboard.handleEndBreak], by simp [AuthPage.handleSubmit],
    by simp [AuthPage.handleSubmit], rfl, rfl, rfl, ?_, rfl, rfl, rfl, rfl⟩
  · cases c <;>
      simp [EmployeeDashboard.dispatch, EmployeeDashboard.handlePunchIn,
        EmployeeDashboard.handlePunchOut, EmployeeDashboard.handleStartBreak,
        EmployeeDashboard.handleEndBreak]
  · cases c <;> rfl

/-- C6 counterexample: a failing today-status fetch whose server response does
carry a detail message still shows the fixed generic toast, which does not
contain the server's message. -/
theorem fetch_error_ignores_server_detail :
    EmployeeDashboard.fetchTodayStatus (.failure (some "quota exceeded"))
      = [.httpRequest "/attendance/today-status",
         .toastError "Failed to fetch today\x27s status"]
  ∧ strContains "Failed to fetch today\x27s status" "quota exceeded" = false
  ∧ (UiEvent.toastError "quota exceeded")
      ∉ EmployeeDashboard.fetchTodayStatus (.failure (some "quota exceeded")) := by
  decide

/-- C7 (amended): handleLogin stores the token and the serialized user in
local storage; startup with both values present and a non-empty token restores
exactly the logged-in user, with no network call and no expiry check (the
startup reader is a pure function of the two stored values); with either value
absent, or after logout, the user is unauthenticated. -/
theorem login_reload_round_trip (st st2 : App.LocalStorage) (tok : String) (u : User)
    (htok : tok ≠ "") (habs : st2.token = none ∨ st2.user = none) :
    (App.handleLogin st tok u).token = some tok
  ∧ (App.handleLogin st tok u).user = some (App.stringifyUser u)
  ∧ App.appStartupUser (App.handleLogin st tok u) = some u
  ∧ App.appStartupUser st2 = none
  ∧ App.appStartupUser (App.handleLogout st) = none := by
  refine ⟨rfl, rfl, ?_, ?_, rfl⟩
  · simp [App.appStartupUser, App.handleLogin, App.stringifyUser, App.parseUser,
      App.jsonLookup, htok]
  · obtain ⟨tk, us⟩ := st2
    rcases habs with h | h
    · simp only at h
      subst h
      rfl
    · simp only at h
      subst h
      cases tk <;> rfl

/-- Witness for `login_reload_round_trip` at a concrete login. -/
theorem login_reload_round_trip_witness :
    ("tok123" ≠ "" ∧ (App.LocalStorage.token {} = none ∨ App.LocalStorage.user {} = none))
  ∧ ((App.handleLogin {} "tok123" (User.mk "Ada" "ada@example.com" "employee")).token = some "tok123"
    ∧ (App.handleLogin {} "tok123" (User.mk "Ada" "ada@example.com" "employee")).user
        = some (App.stringifyUser (User.mk "Ada" "ada@example.com" "employee"))
    ∧ App.appStartupUser (App.handleLogin {} "tok123" (User.mk "Ada" "ada@example.com" "employee"))
        = some (User.mk "Ada" "ada@example.com" "employee")
    ∧ App.appStartupUser {} = none
    ∧ App.appStartupUser (App.handleLogout {}) = none) :=
  ⟨⟨by decide, Or.inl rfl⟩,
   login_reload_round_trip {} {} "tok123" (User.mk "Ada" "ada@example.com" "employee")
     (by decide) (Or.inl rfl)⟩

/-- C7 counterexample: a login that stores the empty-string token leaves both
values present in local storage, yet startup restores no user, because the
code's guard is JS truthiness of the token, not its presence. -/
theorem empty_token_present_but_not_restored :
    (App.handleLogin {} "" (User.mk "Ada" "ada@example.com" "employee")).token = some ""
  ∧ (App.handleLogin {} "" (User.mk "Ada" "ada@example.com" "employee")).user.isSome = true
  ∧ App.appStartupUser (App.handleLogin {} "" (User.mk "Ada" "ada@example.com" "employee")) = none :=
  ⟨rfl, rfl, rfl⟩

/-- C8 (amended): with the status field present, the today summary and the
history row render without throwing for any subset of punch_in, punch_out,
total_hours and break_duration absent, showing the '-' placeholder for each
absent field; the employer monthly row is a total function of the record (its
badge lookup falls back to the active style), so it additionally tolerates an
absent status. -/
theorem render_tolerates_absent_fields (r : AttendanceRecord) (s : String)
    (hs : r.status = some s) :
    EmployeeDashboard.renderTodaySummary r
      = .ok (EmployeeDashboard.todaySummaryCells r ((jsReplaceFirst s "_" " ").toUpper))
  ∧ EmployeeDashboard.renderHistoryRow r
      = .ok (EmployeeDashboard.historyRowCells r (jsReplaceFirst s "_" " "))
  ∧ (∀ r2 : AttendanceRecord, (EmployerDashboard.renderMonthlyRow r2).length = 8)
  ∧ renderOptTime none = "-"
  ∧ renderHours none = "-" := by
  refine ⟨?_, ?_, fun r2 => rfl, rfl, rfl⟩
  · simp [EmployeeDashboard.renderTodaySummary, EmployeeDashboard.todayStatusText, hs,
      Except.map]
  · simp [EmployeeDashboard.renderHistoryRow, EmployeeDashboard.historyStatusText, hs,
      Except.map]

/-- Witness for `render_tolerates_absent_fields` on a record that has only a
status (all four optional display fields absent). -/
theorem render_tolerates_absent_fields_witness :
    (AttendanceRecord.status { date := "2024-03-05", status := some "break_exceeded" }
        = some "break_exceeded")
  ∧ (EmployeeDashboard.renderTodaySummary { date := "2024-03-05", status := some "break_exceeded" }
      = .ok (EmployeeDashboard.todaySummaryCells
          { date := "2024-03-05", status := some "break_exceeded" }
          ((jsReplaceFirst "break_exceeded" "_" " ").toUpper))
    ∧ EmployeeDashboard.renderHistoryRow { date := "2024-03-05", status := some "break_exceeded" }
      = .ok (EmployeeDashboard.historyRowCells
          { date := "2024-03-05", status := some "break_exceeded" }
          (jsReplaceFirst "break_exceeded" "_" " "))
    ∧ (∀ r2 : AttendanceRecord, (EmployerDashboard.renderMonthlyRow r2).length = 8)
    ∧ renderOptTime none = "-"
    ∧ renderHours none = "-") :=
  ⟨rfl, render_tolerates_absent_fields { date := "2024-03-05", status := some "break_exceeded" }
    "break_exceeded" rfl⟩

/-- C8 counterexample: a record whose status field is absent (a subset of the
claim's optional fields) makes both employee renderings throw a TypeError
(`attendance.status.replace` on undefined), so it is not rendered gracefully
with a placeholder. -/
theorem missing_status_throws :
    EmployeeDashboard.renderTodaySummary { date := "2024-01-01", attendance_id := "a1" }
      = .error .typeError
  ∧ EmployeeDashboard.renderHistoryRow { date := "2024-01-01", attendance_id := "a1" }
      = .error .typeError :=
  ⟨rfl, rfl⟩

/-- C9 (amended): when punch_in is absent the computed elapsed time is the
zero display "0h 0m", and whenever isPunchedIn is false the elapsed-time block
is not rendered at all; calculateElapsedTime itself ignores punch_out, so on a
record with both punches set it still measures from punch_in if called. -/
theorem elapsed_meaningful_only_while_punched_in (ts : Option TodayStatus) (now : Int) :
    ((ts.bind TodayStatus.attendance).bind AttendanceRecord.punch_in = none →
      EmployeeDashboard.calculateElapsedTime ts now = "0h 0m")
  ∧ (EmployeeDashboard.isPunchedIn (ts.bind TodayStatus.attendance) = false →
      EmployeeDashboard.elapsedTimeDisplay ts now = none) := by
  constructor
  · intro h
    match ts, h with
    | none, _ => rfl
    | some ⟨none⟩, _ => rfl
    | some ⟨some a⟩, h =>
      simp only [Option.some_bind] at h
      simp [EmployeeDashboard.calculateElapsedTime, h]
  · intro h
    simp [EmployeeDashboard.elapsedTimeDisplay, h]

/-- Witness for `elapsed_meaningful_only_while_punched_in`: no punch_in gives
the zero display, and a punched-out record shows no elapsed-time block. -/
theorem elapsed_meaningful_witness :
    EmployeeDashboard.calculateElapsedTime none 5 = "0h 0m"
  ∧ EmployeeDashboard.elapsedTimeDisplay
      (some ⟨some { punch_in := some 0, punch_out := some 1000 }⟩) 7500000 = none :=
  ⟨(elapsed_meaningful_only_while_punched_in none 5).1 rfl,
   (elapsed_meaningful_only_while_punched_in
      (some ⟨some { punch_in := some 0, punch_out := some 1000 }⟩) 7500000).2 (by decide)⟩

/-- C9 counterexample: a record with punch_in set and punch_out set has
isPunchedIn false, yet the computed elapsed-time value 125 minutes later is
"2h 5m", not the zero display "0h 0m". -/
theorem elapsed_nonzero_after_punch_out :
    EmployeeDashboard.isPunchedIn
      (some { punch_in := some 0, punch_out := some 1000, status := some "complete" }) = false
  ∧ EmployeeDashboard.calculateElapsedTime
      (some ⟨some { punch_in := some 0, punch_out := some 1000, status := some "complete" }⟩)
      7500000 = "2h 5m"
  ∧ ("2h 5m" : String) ≠ "0h 0m" := by
  decide

/-- Helper: a string ending in "h" is never the placeholder "-". -/
theorem append_h_ne_dash (s : String) : s ++ "h" ≠ "-" := by
  intro hcontra
  have hlen := congrArg String.length hcontra
  rw [String.length_append] at hlen
  rw [show ("h" : String).length = 1 from rfl, show ("-" : String).length = 1 from rfl] at hlen
  have hz : s.length = 0 := by omega
  obtain ⟨data⟩ := s
  cases data with
  | nil => exact absurd hcontra (by decide)
  | cons a as => simp [String.length] at hz

/-- C10: total_hours and break_duration render as the placeholder '-' exactly
when the field is absent or equal to 0 (JS falsy), and a numeric value is
displayed if and only if the field is present and nonzero; the same cell
function is used by the today summary, the history row and the monthly report
row. -/
theorem hours_render_iff_truthy :
    (∀ q : Option Rat, renderHours q = "-" ↔ (q = none ∨ q = some 0))
  ∧ (∀ (r : AttendanceRecord) (txt : String),
        (EmployeeDashboard.todaySummaryCells r txt).get? 2 = some (renderHours r.total_hours)
      ∧ (EmployeeDashboard.todaySummaryCells r txt).get? 3 = some (renderHours r.break_duration)
      ∧ (EmployeeDashboard.historyRowCells r txt).get? 3 = some (renderHours r.total_hours)
      ∧ (EmployeeDashboard.historyRowCells r txt).get? 4 = some (renderHours r.break_duration)
      ∧ (EmployerDashboard.renderMonthlyRow r).get? 5 = some (renderHours r.total_hours)
      ∧ (EmployerDashboard.renderMonthlyRow r).get? 6 = some (renderHours r.break_duration)) := by
  constructor
  · rintro (_ | x)
    · simp [renderHours]
    · by_cases hx : x = 0
      · subst hx
        simp [renderHours]
      · simp only [renderHours, if_neg hx, Option.some.injEq]
        constructor
        · intro hcontra
          exact absurd hcontra (append_h_ne_dash _)
        · rintro (hcontra | hcontra)
          · exact absurd hcontra (by simp)
          · exact absurd hcontra hx
  · intro r txt
    exact ⟨rfl, rfl, rfl, rfl, rfl, rfl⟩

end WorkShift
